import Mathlib

/-!
Verification of `escapeSearchQuery`
(src/sentry/static/sentry/app/utils/escapeSearchQuery.jsx).

The JavaScript source is:

```
export function escapeSearchQuery(value) {
  // Cast numbers to string
  if (typeof value === 'number') {
    return `${value}`;
  }
  return typeof value === 'string' ? value.replace(/"/g, '"') : '';
}
```

We shallowly embed the dynamically typed input as an inductive `JSValue`
and the function as a total Lean function on it.  JavaScript numbers are
modelled as integers (the floating-point shortest-round-trip formatting of
JS `ToString` is outside the shallow embedding; the dispatch logic does not
depend on it).  Object and array payloads are irrelevant to the `typeof`
dispatch, so those constructors carry no data.
-/

/-- A dynamically typed JavaScript value, as far as `escapeSearchQuery`
can observe it via `typeof`.  Numbers are modelled as integers. -/
inductive JSValue where
  | num (n : Int)
  | str (s : String)
  | bool (b : Bool)
  | nullV
  | undef
  | obj
  | arr
deriving DecidableEq, Repr

/-- JavaScript `typeof` on a `JSValue` (note `typeof null === 'object'`). -/
def typeofJS : JSValue → String
  | .num _ => "number"
  | .str _ => "string"
  | .bool _ => "boolean"
  | .nullV => "object"
  | .undef => "undefined"
  | .obj => "object"
  | .arr => "object"

/-- Is the value a string value?  Used to state the output-type contract. -/
def isStringValue : JSValue → Bool
  | .str _ => true
  | _ => false

/-- Extract the payload of a string value (the empty string otherwise). -/
def strVal : JSValue → String
  | .str s => s
  | _ => ""

/-- JavaScript template-literal stringification of a number, restricted to
integers: the usual signed decimal representation (`1000` ↦ `"1000"`). -/
def jsNumToString (n : Int) : String :=
  toString n

/-- Global single-character replacement on a list of characters: every
occurrence of `c` is replaced by the character list `r`, all other
characters kept in order.  This is the semantics of JS
`s.replace(/c/g, r)` for a one-character pattern and a replacement string
without `$`-patterns. -/
def replaceCharList (c : Char) (r : List Char) : List Char → List Char
  | [] => []
  | x :: xs => (if x = c then r else [x]) ++ replaceCharList c r xs

/-- The string branch of the source, `value.replace(/"/g, '"')`:
every `"` is replaced by the one-character replacement string `"`. -/
def jsReplaceQuotes (s : String) : String :=
  ⟨replaceCharList (Char.ofNat 34) (String.data "\"") s.data⟩

/-- The whole source function: dispatch on `typeof value`, numbers are
stringified, strings go through the quote replacement, everything else
becomes the empty string. -/
def escapeSearchQuery : JSValue → JSValue
  | .num n => .str (jsNumToString n)
  | .str s => .str (jsReplaceQuotes s)
  | _ => .str ""

/-- Modelled from the spec: the escaping the specification describes
(`"` ↦ `\"`), stated for comparison with the source's `jsReplaceQuotes`.
This definition follows the spec's words, not the code. -/
def specEscapeQuotes (s : String) : String :=
  ⟨replaceCharList (Char.ofNat 34) (String.data "\\\"") s.data⟩

/-- The spec's `decimalStringOf`: the canonical signed decimal
representation of an integer. -/
def decimalStringOf (n : Int) : String :=
  toString n

/-- The double-quote character. -/
def quoteChar : Char := Char.ofNat 34

lemma replaceCharList_self (c : Char) :
    ∀ l : List Char, replaceCharList c [c] l = l := by
  intro l
  induction l with
  | nil => rfl
  | cons x xs ih =>
      by_cases h : x = c <;> simp [replaceCharList, h, ih]

lemma quote_data : String.data "\"" = [Char.ofNat 34] := by decide

lemma jsReplaceQuotes_id (s : String) : jsReplaceQuotes s = s := by
  cases s with
  | mk l =>
      show String.mk (replaceCharList (Char.ofNat 34) (String.data "\"") l) = String.mk l
      rw [quote_data, replaceCharList_self]

/-- C1 counterexample: on the one-character string `"` the function returns
the string unchanged, which differs from the backslash-escaped string the
claim promises. -/
theorem escapeSearchQuery_backslash_cex :
    escapeSearchQuery (JSValue.str "\"") = JSValue.str "\"" ∧
      escapeSearchQuery (JSValue.str "\"") ≠ JSValue.str (specEscapeQuotes "\"") := by
  decide

/-- C1 (amended): for every string containing at least one double quote,
`escapeSearchQuery` replaces each double quote by a double quote itself —
no backslash is inserted — so the string comes back unchanged. -/
theorem escapeSearchQuery_quotes_unchanged (s : String)
    (h : quoteChar ∈ s.data) :
    escapeSearchQuery (JSValue.str s) = JSValue.str s := by
  simp [escapeSearchQuery, jsReplaceQuotes_id]

/-- Witness for C1 (amended) on the string `a"b`. -/
theorem escapeSearchQuery_quotes_unchanged_witness :
    escapeSearchQuery (JSValue.str "a\"b") = JSValue.str "a\"b" :=
  escapeSearchQuery_quotes_unchanged "a\"b" (by decide)

/-- C2 counterexample: the string `"` has exactly one double quote, yet
the output length equals the input length, not input length + 1. -/
theorem escapeSearchQuery_length_cex :
    List.count quoteChar (String.data "\"") = 1 ∧
      (strVal (escapeSearchQuery (JSValue.str "\""))).length ≠
        String.length "\"" + 1 := by
  decide

/-- C2 (amended): for every string with `k` occurrences of the double
quote, the output of `escapeSearchQuery` has the same length as the input
(no character is inserted per quote). -/
theorem escapeSearchQuery_length (s : String) (k : Nat)
    (h : List.count quoteChar s.data = k) :
    (strVal (escapeSearchQuery (JSValue.str s))).length = s.length := by
  simp [escapeSearchQuery, jsReplaceQuotes_id, strVal]

/-- Witness for C2 (amended) on the string `a"b` with `k = 1`. -/
theorem escapeSearchQuery_length_witness :
    (strVal (escapeSearchQuery (JSValue.str "a\"b"))).length =
      String.length "a\"b" :=
  escapeSearchQuery_length "a\"b" 1 (by decide)

/-- C3 counterexample: there is no string containing a double quote on
which a second application of `escapeSearchQuery` changes the result —
the function is idempotent on strings, contrary to the claim. -/
theorem escapeSearchQuery_not_idempotent_cex :
    ¬ ∃ s : String, quoteChar ∈ s.data ∧
        escapeSearchQuery (escapeSearchQuery (JSValue.str s)) ≠
          escapeSearchQuery (JSValue.str s) := by
  rintro ⟨s, -, hne⟩
  exact hne (by simp [escapeSearchQuery, jsReplaceQuotes_id])

/-- C3 (amended): `escapeSearchQuery` is idempotent on every string input,
including strings containing double quotes. -/
theorem escapeSearchQuery_idempotent_str (s : String) :
    escapeSearchQuery (escapeSearchQuery (JSValue.str s)) =
      escapeSearchQuery (JSValue.str s) := by
  simp [escapeSearchQuery, jsReplaceQuotes_id]

/-- C4: on every string input, with or without double quotes,
`escapeSearchQuery` is the identity: the global replacement substitutes a
double quote for each double quote, inserting no backslash. -/
theorem escapeSearchQuery_str_identity (s : String) :
    escapeSearchQuery (JSValue.str s) = JSValue.str s := by
  simp [escapeSearchQuery, jsReplaceQuotes_id]

/-- C5: a string containing no double quote is returned unchanged. -/
theorem escapeSearchQuery_no_quotes (s : String)
    (h : quoteChar ∉ s.data) :
    escapeSearchQuery (JSValue.str s) = JSValue.str s := by
  simp [escapeSearchQuery, jsReplaceQuotes_id]

/-- Witness for C5 on the string `test`. -/
theorem escapeSearchQuery_no_quotes_witness :
    escapeSearchQuery (JSValue.str "test") = JSValue.str "test" :=
  escapeSearchQuery_no_quotes "test" (by decide)

/-- C6: every numeric input is returned as its canonical decimal string
representation (numbers modelled as integers). -/
theorem escapeSearchQuery_num (n : Int) :
    escapeSearchQuery (JSValue.num n) = JSValue.str (decimalStringOf n) :=
  rfl

/-- C7: every input that is neither a number nor a string (null,
undefined, boolean, object, array) yields the empty string. -/
theorem escapeSearchQuery_other (v : JSValue)
    (h1 : typeofJS v ≠ "number") (h2 : typeofJS v ≠ "string") :
    escapeSearchQuery v = JSValue.str "" := by
  cases v <;> simp_all [typeofJS, escapeSearchQuery]

/-- Witness for C7 on `null`. -/
theorem escapeSearchQuery_other_witness :
    escapeSearchQuery JSValue.nullV = JSValue.str "" :=
  escapeSearchQuery_other JSValue.nullV (by decide) (by decide)

/-- C8: `escapeSearchQuery` is total — on every input of every modelled
type it produces a result (a string value), never an error. -/
theorem escapeSearchQuery_total (v : JSValue) :
    ∃ s : String, escapeSearchQuery v = JSValue.str s := by
  cases v <;> exact ⟨_, rfl⟩

/-- C9: on every input, the result of `escapeSearchQuery` is a value of
string type. -/
theorem escapeSearchQuery_returns_string (v : JSValue) :
    isStringValue (escapeSearchQuery v) = true := by
  cases v <;> rfl

/-- C10: `escapeSearchQuery` is deterministic — identical inputs yield
identical outputs (it is a pure function of its argument). -/
theorem escapeSearchQuery_deterministic (v w : JSValue) (h : v = w) :
    escapeSearchQuery v = escapeSearchQuery w := by
  rw [h]

/-- Witness for C10 on the number 1000. -/
theorem escapeSearchQuery_deterministic_witness :
    escapeSearchQuery (JSValue.num 1000) =
      escapeSearchQuery (JSValue.num 1000) :=
  escapeSearchQuery_deterministic (JSValue.num 1000) (JSValue.num 1000) rfl
